import Mathlib

/-!
Shallow embedding of `packages/core/src/providers/keyp.ts`: the Keyp
OIDC provider descriptor builder and its profile normalizer.

Raw claims objects and the normalizer's output are modelled at the
JavaScript-object level: an object is an association list from property
names to values, property access returns `none` for an absent key
(JavaScript `undefined`), and a property can be present with value
`undefined` (hence output values of type `Option String`).
-/

/-- A raw claims object from the Keyp userinfo endpoint: an open mapping
from claim names to string values (absent keys read as `undefined`). -/
abbrev RawClaims : Type := List (String × String)

/-- JavaScript property access `obj.k` on a raw claims object: the value at
the first binding of `k`, or `undefined` (`none`) when `k` is absent. -/
def getClaim (k : String) : RawClaims → Option String
  | [] => none
  | (k', v) :: rest => if k' = k then some v else getClaim k rest

/-- A JavaScript object whose property values are strings or `undefined`:
the shape of the object literal returned by the `profile` method. -/
abbrev JsObject : Type := List (String × Option String)

/-- Property access on a `JsObject`. -/
def getProp (k : String) : JsObject → Option (Option String)
  | [] => none
  | (k', v) :: rest => if k' = k then some v else getProp k rest

/-- The property names of a `JsObject`, in literal order. -/
def propNames (o : JsObject) : List String := o.map Prod.fst

/-- The `profile` method of the Keyp descriptor, transcribed from the
source: it returns the object literal
`\x7b id: profile.sub, name: profile.username, email: profile.email,
image: profile.imageSrc, address: profile.address \x7d`. -/
def keypProfile (p : RawClaims) : JsObject :=
  [ ("id", getClaim "sub" p)
  , ("name", getClaim "username" p)
  , ("email", getClaim "email" p)
  , ("image", getClaim "imageSrc" p)
  , ("address", getClaim "address" p) ]

/-- The caller-supplied configuration: `OIDCUserConfig & AdditionalConfig`
restricted to the fields the `Keyp` function reads or stores. `clientId`
is optional in the TypeScript surface type, and `scope` / `redirectUrl`
are declared `string | undefined`. -/
structure KeypUserConfig where
  clientId : Option String
  scope : Option String
  redirectUrl : Option String
deriving DecidableEq, Repr

/-- JavaScript string coalescing: both `a || b` and the conditional
`a ? a : b` on a value of type `string | undefined` yield `b` exactly
when `a` is `undefined` or the empty string (both falsy), and `a`
otherwise. -/
def jsOr (a : Option String) (b : String) : String :=
  match a with
  | some s => if s = "" then b else s
  | none => b

/-- The `authorization.params` object of the descriptor. -/
structure AuthorizationParams where
  scope : String
deriving DecidableEq, Repr

/-- The `authorization` entry of the descriptor. -/
structure AuthorizationEntry where
  url : String
  params : AuthorizationParams
deriving DecidableEq, Repr

/-- The `token` entry of the descriptor. -/
structure TokenEntry where
  url : String
deriving DecidableEq, Repr

/-- The `client` entry of the descriptor. -/
structure ClientEntry where
  token_endpoint_auth_method : String
deriving DecidableEq, Repr

/-- The `style` entry of the descriptor (display metadata). -/
structure StyleEntry where
  logo : String
  logoDark : String
  bg : String
  text : String
  bgDark : String
  textDark : String
deriving DecidableEq, Repr

/-- The provider descriptor returned by `Keyp` (the `OIDCConfig` shape
restricted to the fields the source populates). -/
structure OIDCConfig where
  id : String
  name : String
  type : String
  clientId : Option String
  issuer : String
  wellKnown : String
  authorization : AuthorizationEntry
  token : TokenEntry
  userinfo : String
  client : ClientEntry
  profile : RawClaims → JsObject
  style : StyleEntry
  options : KeypUserConfig

/-- The Descriptor Builder, transcribed from the source. The second
argument is the value of `process.env.NEXT_PUBLIC_KEYP_API_DOMAIN` at the
moment of the call (`none` when the variable is unset); the source reads
it once, while building the descriptor. -/
def Keyp (config : KeypUserConfig) (envDomain : Option String) : OIDCConfig :=
  let clientId := config.clientId
  let scope := config.scope
  let defaultScope := "openid email"
  let KEYP_API_DOMAIN := jsOr envDomain "https://api.usekeyp.com"
  { id := "keyp"
  , name := "Keyp"
  , type := "oidc"
  , clientId := clientId
  , issuer := "https://api.usekeyp.com"
  , wellKnown := KEYP_API_DOMAIN ++ "/oauth/.well-known/openid-configuration"
  , authorization :=
      { url := "https://app.usekeyp.com/oauth/auth"
      , params := { scope := jsOr scope defaultScope } }
  , token := { url := "https://api.usekeyp.com/oauth/token" }
  , userinfo := "https://api.usekeyp.com/oauth/me"
  , client := { token_endpoint_auth_method := "none" }
  , profile := keypProfile
  , style :=
      { logo := "/keyp.svg"
      , logoDark := "/keyp-dark.svg"
      , bg := "#fff"
      , text := "#005285"
      , bgDark := "#005285"
      , textDark := "#fff" }
  , options := config }

/-- The error kind raised when a required configuration field is missing. -/
inductive ConfigurationError where
  | missingClientId
deriving DecidableEq, Repr

/-- Modelled from the spec: the external authentication core's build-time
validation of the provider registration, which is not under `src/` (only
the Keyp descriptor builder is). Per the spec, a missing or empty
`clientId` "raises a ConfigurationError and no descriptor is produced";
otherwise the descriptor built by `Keyp` is registered. -/
def build (config : KeypUserConfig) (envDomain : Option String) :
    Except ConfigurationError OIDCConfig :=
  match config.clientId with
  | none => .error .missingClientId
  | some s =>
      if s = "" then .error .missingClientId
      else .ok (Keyp config envDomain)

/-- Claim C1: if the caller supplies a non-empty scope string, the
descriptor's authorization params contain exactly that string as the
scope; when the scope is absent or the empty string, the scope is exactly
the fixed default "openid email"; the caller's scope is never merged with
the default. -/
theorem keyp_scope_negotiation (config : KeypUserConfig) (envDomain : Option String) :
    (∀ s, config.scope = some s → s ≠ "" →
      (Keyp config envDomain).authorization.params.scope = s) ∧
    ((config.scope = none ∨ config.scope = some "") →
      (Keyp config envDomain).authorization.params.scope = "openid email") := by
  constructor
  · intro s hs hne
    simp [Keyp, jsOr, hs, hne]
  · rintro (h | h) <;> simp [Keyp, jsOr, h]

/-- Witness for C1 at the spec's concrete scenarios 1 and 2. -/
theorem keyp_scope_negotiation_witness :
    (Keyp ⟨some "abc123", some "openid profile", none⟩ none).authorization.params.scope
        = "openid profile" ∧
    (Keyp ⟨some "abc123", none, none⟩ none).authorization.params.scope
        = "openid email" :=
  ⟨(keyp_scope_negotiation ⟨some "abc123", some "openid profile", none⟩ none).1
      "openid profile" rfl (by decide),
   (keyp_scope_negotiation ⟨some "abc123", none, none⟩ none).2 (Or.inl rfl)⟩

/-- Claim C2: for every raw claims record with a non-empty subject claim,
the normalizer's output has an `id` property equal to that subject claim
exactly, with no transformation. -/
theorem keyp_profile_id_is_sub (p : RawClaims) (s : String)
    (hs : getClaim "sub" p = some s) (_hne : s ≠ "") :
    getProp "id" (keypProfile p) = some (some s) := by
  simp [keypProfile, getProp, hs]

/-- Witness for C2 at a concrete raw claims record. -/
theorem keyp_profile_id_is_sub_witness :
    getProp "id" (keypProfile [("sub", "u1")]) = some (some "u1") :=
  keyp_profile_id_is_sub [("sub", "u1")] "u1" (by decide) (by decide)

/-- Counterexample to claim C3: on the claimed concrete input, the
normalizer's output has no `extensions` property at all; the address
appears as a top-level `address` property instead. -/
theorem keyp_profile_extensions_counterexample :
    getProp "extensions"
      (keypProfile [("sub", "u1"), ("username", "alice"), ("email", "a@x.com"),
        ("imageSrc", "https://x/img.png"), ("address", "0xabc")]) = none ∧
    getProp "address"
      (keypProfile [("sub", "u1"), ("username", "alice"), ("email", "a@x.com"),
        ("imageSrc", "https://x/img.png"), ("address", "0xabc")]) = some (some "0xabc") := by
  decide

/-- Claim C3 as amended: the provider-specific address claim is passed
through into the output as the top-level `address` property (never
dropped); concretely, the scenario-3 input maps to the flat object with
the address at top level and no `extensions` mapping. -/
theorem keyp_profile_address_passthrough (p : RawClaims) :
    getProp "address" (keypProfile p) = some (getClaim "address" p) ∧
    keypProfile [("sub", "u1"), ("username", "alice"), ("email", "a@x.com"),
        ("imageSrc", "https://x/img.png"), ("address", "0xabc")]
      = [("id", some "u1"), ("name", some "alice"), ("email", some "a@x.com"),
         ("image", some "https://x/img.png"), ("address", some "0xabc")] := by
  constructor
  · rfl
  · decide

/-- Counterexample to claim C4: on the claimed concrete input
`[("sub", "u2")]`, the normalizer's output has no `extensions` property
(so it cannot equal a record with `extensions: \x7b\x7d`); its properties
are exactly `id`, `name`, `email`, `image`, `address`. -/
theorem keyp_profile_missing_claims_counterexample :
    getProp "extensions" (keypProfile [("sub", "u2")]) = none ∧
    propNames (keypProfile [("sub", "u2")]) = ["id", "name", "email", "image", "address"] := by
  decide

/-- Claim C4 as amended: for raw claims missing the optional username,
email, or imageSrc claims, the normalizer still returns (it is total, no
error), and each missing optional claim maps to a property holding
`undefined` — never an empty-string placeholder; concretely,
`normalize([("sub", "u2")])` is the flat object with `id = "u2"` and
`name`, `email`, `image`, `address` all `undefined`. -/
theorem keyp_profile_missing_optional_claims (p : RawClaims)
    (hname : getClaim "username" p = none) (hemail : getClaim "email" p = none)
    (himg : getClaim "imageSrc" p = none) :
    getProp "name" (keypProfile p) = some none ∧
    getProp "email" (keypProfile p) = some none ∧
    getProp "image" (keypProfile p) = some none ∧
    keypProfile [("sub", "u2")]
      = [("id", some "u2"), ("name", none), ("email", none), ("image", none),
         ("address", none)] := by
  refine ⟨?_, ?_, ?_, by decide⟩
  · simp [keypProfile, getProp, hname]
  · simp [keypProfile, getProp, hemail]
  · simp [keypProfile, getProp, himg]

/-- Witness for the amended C4 at the concrete input `[("sub", "u2")]`. -/
theorem keyp_profile_missing_optional_claims_witness :
    getProp "name" (keypProfile [("sub", "u2")]) = some none ∧
    getProp "email" (keypProfile [("sub", "u2")]) = some none ∧
    getProp "image" (keypProfile [("sub", "u2")]) = some none :=
  let h := keyp_profile_missing_optional_claims [("sub", "u2")]
    (by decide) (by decide) (by decide)
  ⟨h.1, h.2.1, h.2.2.1⟩

/-- Claim C5: for every configuration and every override value, the
descriptor's client authentication method is the string "none", and the
whole `client` entry does not depend on any input. -/
theorem keyp_client_auth_method_none (c₁ c₂ : KeypUserConfig) (e₁ e₂ : Option String) :
    (Keyp c₁ e₁).client.token_endpoint_auth_method = "none" ∧
    (Keyp c₁ e₁).client = (Keyp c₂ e₂).client :=
  ⟨rfl, rfl⟩

/-- Claim C6: when the configuration's clientId is missing or empty, the
build raises a ConfigurationError and no descriptor is produced. -/
theorem build_missing_clientId_error (config : KeypUserConfig) (envDomain : Option String)
    (h : config.clientId = none ∨ config.clientId = some "") :
    build config envDomain = .error ConfigurationError.missingClientId := by
  rcases h with h | h <;> simp [build, h]

/-- Witness for C6 at a configuration with no clientId. -/
theorem build_missing_clientId_error_witness :
    build ⟨none, none, none⟩ none = .error ConfigurationError.missingClientId :=
  build_missing_clientId_error ⟨none, none, none⟩ none (Or.inl rfl)

/-- Counterexample to claim C7: with the deployment override set to the
empty string, the discovery URL is not built from that override value;
the hard-coded default domain is used instead. -/
theorem keyp_wellKnown_empty_override_counterexample :
    (Keyp ⟨some "abc123", none, none⟩ (some "")).wellKnown
        = "https://api.usekeyp.com/oauth/.well-known/openid-configuration" ∧
    (Keyp ⟨some "abc123", none, none⟩ (some "")).wellKnown
        ≠ "" ++ "/oauth/.well-known/openid-configuration" := by
  constructor
  · rfl
  · decide

/-- Claim C7 as amended: the discovery URL is built from the deployment
override when it is set to a non-empty string, and from the hard-coded
default domain "https://api.usekeyp.com" when it is absent or empty,
while the issuer, authorization, token, and userinfo endpoints are fixed
constants unaffected by the override (which is read once at build time,
as an argument of `Keyp`). -/
theorem keyp_endpoint_resolution (config : KeypUserConfig) (envDomain : Option String) :
    (∀ s, envDomain = some s → s ≠ "" →
      (Keyp config envDomain).wellKnown = s ++ "/oauth/.well-known/openid-configuration") ∧
    ((envDomain = none ∨ envDomain = some "") →
      (Keyp config envDomain).wellKnown
        = "https://api.usekeyp.com/oauth/.well-known/openid-configuration") ∧
    (Keyp config envDomain).issuer = "https://api.usekeyp.com" ∧
    (Keyp config envDomain).authorization.url = "https://app.usekeyp.com/oauth/auth" ∧
    (Keyp config envDomain).token.url = "https://api.usekeyp.com/oauth/token" ∧
    (Keyp config envDomain).userinfo = "https://api.usekeyp.com/oauth/me" := by
  refine ⟨?_, ?_, rfl, rfl, rfl, rfl⟩
  · intro s hs hne
    simp [Keyp, jsOr, hs, hne]
  · rintro (h | h) <;> simp [Keyp, jsOr, h]

/-- Witness for the amended C7 at a non-empty override and at no override. -/
theorem keyp_endpoint_resolution_witness :
    (Keyp ⟨some "abc123", none, none⟩ (some "https://localhost:8000")).wellKnown
        = "https://localhost:8000" ++ "/oauth/.well-known/openid-configuration" ∧
    (Keyp ⟨some "abc123", none, none⟩ none).wellKnown
        = "https://api.usekeyp.com/oauth/.well-known/openid-configuration" :=
  ⟨(keyp_endpoint_resolution ⟨some "abc123", none, none⟩ (some "https://localhost:8000")).1
      "https://localhost:8000" rfl (by decide),
   (keyp_endpoint_resolution ⟨some "abc123", none, none⟩ none).2.1 (Or.inl rfl)⟩

/-- Claim C8: the Descriptor Builder is deterministic — two calls with
structurally identical configurations and the same deployment override
return structurally identical descriptors. -/
theorem Keyp_deterministic (c₁ c₂ : KeypUserConfig) (e₁ e₂ : Option String)
    (hc : c₁ = c₂) (he : e₁ = e₂) : Keyp c₁ e₁ = Keyp c₂ e₂ := by
  rw [hc, he]

/-- Witness for C8 at a concrete configuration and override. -/
theorem Keyp_deterministic_witness :
    Keyp ⟨some "abc123", some "openid profile", some "https://x/cb"⟩ none
      = Keyp ⟨some "abc123", some "openid profile", some "https://x/cb"⟩ none :=
  Keyp_deterministic _ _ _ _ rfl rfl

/-- Claim C9: the Profile Normalizer is deterministic — two invocations on
identical raw claims return identical outputs (it is a pure function of
its argument, with no other state). -/
theorem keypProfile_deterministic (p₁ p₂ : RawClaims) (h : p₁ = p₂) :
    keypProfile p₁ = keypProfile p₂ := by
  rw [h]

/-- Witness for C9 at a concrete raw claims record. -/
theorem keypProfile_deterministic_witness :
    keypProfile [("sub", "u1"), ("address", "0xabc")]
      = keypProfile [("sub", "u1"), ("address", "0xabc")] :=
  keypProfile_deterministic _ _ rfl

/-- Claim C10: for every raw claims input, the normalizer's output has
exactly the five properties id, name, email, image, address, populated
respectively from the raw claims sub, username, email, imageSrc, address;
a raw claim under any other name (e.g. locale) does not influence the
output in any form. -/
theorem keyp_profile_shape (p : RawClaims) (k : String) (v : String)
    (hk : k ∉ (["sub", "username", "email", "imageSrc", "address"] : List String)) :
    propNames (keypProfile p) = ["id", "name", "email", "image", "address"] ∧
    getProp "id" (keypProfile p) = some (getClaim "sub" p) ∧
    getProp "name" (keypProfile p) = some (getClaim "username" p) ∧
    getProp "email" (keypProfile p) = some (getClaim "email" p) ∧
    getProp "image" (keypProfile p) = some (getClaim "imageSrc" p) ∧
    getProp "address" (keypProfile p) = some (getClaim "address" p) ∧
    keypProfile ((k, v) :: p) = keypProfile p := by
  simp only [List.mem_cons, List.not_mem_nil, or_false, not_or] at hk
  obtain ⟨h1, h2, h3, h4, h5⟩ := hk
  refine ⟨rfl, rfl, rfl, rfl, rfl, rfl, ?_⟩
  simp [keypProfile, getClaim, h1, h2, h3, h4, h5]

/-- Witness for C10: a locale claim added in front of a concrete record
leaves the output unchanged, and the property list is the fixed five. -/
theorem keyp_profile_shape_witness :
    propNames (keypProfile [("sub", "u1")]) = ["id", "name", "email", "image", "address"] ∧
    keypProfile (("locale", "en") :: [("sub", "u1")]) = keypProfile [("sub", "u1")] :=
  ⟨(keyp_profile_shape [("sub", "u1")] "locale" "en" (by decide)).1,
   (keyp_profile_shape [("sub", "u1")] "locale" "en" (by decide)).2.2.2.2.2.2⟩
